import Mathlib

/-!
Shallow embedding of `src/pymcmc/_gpy_model.py` (class `GPyModel`), a caching
adapter around an externally supplied GPy model.

Modelling choices:
- The wrapped GPy model is a black box.  Its observable behaviour is a record
  of query functions over an abstract internal state `σ` (the model owns
  mutable state; the only mutator the adapter uses is the `optimizer_array`
  setter, and `assign_priors_to_gpy_model` which mutates the model in place).
- Python exceptions are modelled with `Except E`: a query either returns a
  value or raises an error that propagates.
- Numeric values (floats / numpy scalars) are opaque to the adapter, which
  never computes with them; they are modelled by an abstract type `V`
  (instantiated to `Int` in concrete examples).
- `self._state` is a Python dict with a fixed set of optional keys; it is
  modelled as a record of `Option` fields, `none` meaning the key is absent
  (reading an absent key raises `KeyError`, i.e. yields `none` here).
- `_eval_state` first executes `self._state = {}` and then populates the dict
  key by key; an exception raised by a model query therefore leaves the
  freshly created dict in a partly populated state.  The embedding
  `evalStateCore` returns the error (if any) together with the snapshot as it
  stood when the error was raised.
-/

/-- The value returned by `model._log_prior_gradients()`: in the source this is
either a Python `float` scalar (checked with `isinstance(g, float)`) or an
array of per-parameter gradients. -/
inductive ScalarOrArray (V : Type) where
  | scalar : V → ScalarOrArray V
  | array : List V → ScalarOrArray V
deriving DecidableEq

/-- Behaviour of the wrapped GPy model: the query and mutation surface that
`GPyModel` consumes (spec §6).  `σ` is the model's internal state. -/
structure GPyInterface (σ V E : Type) where
  /-- `model.log_likelihood()` -/
  log_likelihood : σ → Except E V
  /-- `model.log_prior()` -/
  log_prior : σ → Except E V
  /-- `model._log_likelihood_gradients()` -/
  log_likelihood_gradients : σ → Except E (List V)
  /-- `model._log_prior_gradients()` -/
  log_prior_gradients : σ → Except E (ScalarOrArray V)
  /-- `model._transform_gradients(g)` -/
  transform_gradients : σ → List V → Except E (List V)
  /-- reading `model.optimizer_array` (the live transformed parameter vector) -/
  optimizer_array : σ → List V
  /-- writing `model.optimizer_array = value` (mutates the model) -/
  set_optimizer_array : σ → List V → σ
  /-- `model.num_params_transformed()` -/
  num_params_transformed : σ → Nat
  /-- `model._get_param_names()` -/
  get_param_names : σ → List String
  /-- the external routine `assign_priors_to_gpy_model(model)` (mutates the
  model in place) -/
  assign_priors : σ → σ

/-- The cached snapshot `self._state`: a dict whose possible keys are
`log_likelihood`, `log_prior`, `grad_log_likelihood`, `grad_log_prior` and
`params`; `none` models an absent key. -/
structure ModelState (V : Type) where
  log_likelihood : Option V
  log_prior : Option V
  grad_log_likelihood : Option (List V)
  grad_log_prior : Option (List V)
  params : Option (List V)
deriving DecidableEq

/-- The empty dict `{}` assigned at the top of `_eval_state`. -/
def ModelState.empty {V : Type} : ModelState V :=
  ⟨none, none, none, none, none⟩

/-- The adapter object: the wrapped model (its behaviour `gpy` and its current
mutable state `mstate`), the name passed to the base class, the
`_compute_grad` flag and the cached snapshot `_state`. -/
structure GPyModel (σ V E : Type) where
  gpy : GPyInterface σ V E
  mstate : σ
  name : String
  compute_grad : Bool
  state : ModelState V

/-- Lines 54-56 of `_eval_state`: the shape fix-up applied to the raw
log-prior gradient before it is handed to `_transform_gradients` —
`if isinstance(g, float): g = np.array([g] * self.num_params)`. -/
def normalizePriorGrad {V : Type} (g : ScalarOrArray V) (n : Nat) : List V :=
  match g with
  | .scalar x => List.replicate n x
  | .array xs => xs

/-- The body of `GPyModel._eval_state` (lines 44-58) as a function of the
wrapped model's behaviour `g`, its current state `m` and the
`_compute_grad` flag `cg`.  It returns the outcome (`ok` or the first
exception, propagated unchanged) together with the snapshot dict as the
method leaves it: `self._state = {}` runs first, and each key is stored as
soon as it is computed, so on an exception the returned snapshot holds
exactly the keys stored before the failing call. -/
def evalStateCore {σ V E : Type} (g : GPyInterface σ V E) (m : σ)
    (cg : Bool) : Except E Unit × ModelState V :=
  let st : ModelState V := ModelState.empty
  match g.log_likelihood m with
  | .error e => (.error e, st)
  | .ok ll =>
    let st := { st with log_likelihood := some ll }
    match g.log_prior m with
    | .error e => (.error e, st)
    | .ok lp =>
      let st := { st with log_prior := some lp }
      if cg then
        match g.log_likelihood_gradients m with
        | .error e => (.error e, st)
        | .ok gl =>
          match g.transform_gradients m gl with
          | .error e => (.error e, st)
          | .ok tgl =>
            let st := { st with grad_log_likelihood := some tgl }
            match g.log_prior_gradients m with
            | .error e => (.error e, st)
            | .ok gp =>
              match g.transform_gradients m
                  (normalizePriorGrad gp (g.num_params_transformed m)) with
              | .error e => (.error e, st)
              | .ok tgp =>
                let st := { st with grad_log_prior := some tgp }
                (.ok (), { st with params := some (g.optimizer_array m) })
      else
        (.ok (), { st with params := some (g.optimizer_array m) })

/-- `GPyModel._eval_state(self)`: runs `evalStateCore` at the adapter's
current model state and installs the resulting snapshot (also the partly
populated one when an exception propagates, since in the source the dict is
rebound to `self._state` before being populated in place). -/
def GPyModel.eval_state {σ V E : Type} (a : GPyModel σ V E) :
    Except E Unit × GPyModel σ V E :=
  let r := evalStateCore a.gpy a.mstate a.compute_grad
  (r.1, { a with state := r.2 })

/-- `GPyModel.__init__(model, name, compute_grad, assign_priors)`: optionally
assign priors (mutating the model), store the flag, then evaluate the state.
Any exception from the evaluation propagates; the adapter built so far is
returned alongside so its fields can be inspected. -/
def GPyModel.init {σ V E : Type} (g : GPyInterface σ V E) (m : σ)
    (name : String) (compute_grad : Bool) (assign_priors : Bool) :
    Except E Unit × GPyModel σ V E :=
  let m := if assign_priors then g.assign_priors m else m
  let a : GPyModel σ V E :=
    { gpy := g, mstate := m, name := name, compute_grad := compute_grad,
      state := ModelState.empty }
  a.eval_state

/-- `GPyModel.__getstate__`. -/
def GPyModel.getstate {σ V E : Type} (a : GPyModel σ V E) : ModelState V :=
  a.state

/-- `GPyModel.__setstate__`. -/
def GPyModel.setstate {σ V E : Type} (a : GPyModel σ V E)
    (s : ModelState V) : GPyModel σ V E :=
  { a with state := s }

/-- Property `GPyModel.log_likelihood`: `self._state['log_likelihood']`
(`none` = `KeyError`). -/
def GPyModel.log_likelihood {σ V E : Type} (a : GPyModel σ V E) : Option V :=
  a.state.log_likelihood

/-- Property `GPyModel.log_prior`: `self._state['log_prior']`. -/
def GPyModel.log_prior {σ V E : Type} (a : GPyModel σ V E) : Option V :=
  a.state.log_prior

/-- Property `GPyModel.num_params`: `self.model.num_params_transformed()`,
read live from the wrapped model. -/
def GPyModel.num_params {σ V E : Type} (a : GPyModel σ V E) : Nat :=
  a.gpy.num_params_transformed a.mstate

/-- Property `GPyModel.params` (read): `self._state['params']`. -/
def GPyModel.params {σ V E : Type} (a : GPyModel σ V E) : Option (List V) :=
  a.state.params

/-- Property `GPyModel.params` (write): `self.model.optimizer_array = value;
self._eval_state()`. -/
def GPyModel.set_params {σ V E : Type} (a : GPyModel σ V E) (v : List V) :
    Except E Unit × GPyModel σ V E :=
  ({ a with mstate := a.gpy.set_optimizer_array a.mstate v }).eval_state

/-- Property `GPyModel.param_names`: `self.model._get_param_names()`, read
live from the wrapped model. -/
def GPyModel.param_names {σ V E : Type} (a : GPyModel σ V E) : List String :=
  a.gpy.get_param_names a.mstate

/-- Property `GPyModel.grad_log_likelihood`:
`self._state['grad_log_likelihood']`. -/
def GPyModel.grad_log_likelihood {σ V E : Type} (a : GPyModel σ V E) :
    Option (List V) :=
  a.state.grad_log_likelihood

/-- Property `GPyModel.grad_log_prior`: `self._state['grad_log_prior']`. -/
def GPyModel.grad_log_prior {σ V E : Type} (a : GPyModel σ V E) :
    Option (List V) :=
  a.state.grad_log_prior

/-!
Reference model for line 58, `self._state['params'] =
self.model.optimizer_array.copy()`.  The value-level embedding above cannot
distinguish a copy from an alias, so the copy is modelled separately on a
small heap of numpy arrays: array references are indices into a store of
contents, `ndarray.copy()` allocates a fresh reference with the same
contents, and external mutation of the model's array is a write through the
model's reference.
-/

/-- A heap of numpy arrays: reference `r` denotes `arrays[r]`. -/
structure Heap (V : Type) where
  arrays : List (List V)
deriving DecidableEq

/-- Dereference an array: the contents behind reference `r`. -/
def Heap.read {V : Type} (h : Heap V) (r : Nat) : List V :=
  h.arrays.getD r []

/-- In-place mutation of the array behind reference `r` (e.g. an external
write to the model's internal parameter array). -/
def Heap.write {V : Type} (h : Heap V) (r : Nat) (xs : List V) : Heap V :=
  ⟨h.arrays.set r xs⟩

/-- `ndarray.copy()`: allocate a fresh array holding the same contents and
return the new heap together with the fresh reference. -/
def Heap.copy {V : Type} (h : Heap V) (r : Nat) : Heap V × Nat :=
  (⟨h.arrays ++ [h.read r]⟩, h.arrays.length)

/-!
Concrete wrapped models used as evaluation witnesses.  The model state is
simply the optimizer array itself (`σ := List Int`), values are `Int`,
errors are `String`.
-/

/-- A concrete deterministic wrapped model: every query is a function of the
optimizer array, the prior gradient is reported as the scalar `0`, and the
gradient transform doubles each entry. -/
def demoGpy : GPyInterface (List Int) Int String where
  log_likelihood s := .ok (s.foldl (· + ·) 0)
  log_prior s := .ok (Int.ofNat s.length)
  log_likelihood_gradients s := .ok s
  log_prior_gradients _ := .ok (ScalarOrArray.scalar 0)
  transform_gradients _ v := .ok (v.map (fun x => 2 * x))
  optimizer_array s := s
  set_optimizer_array _ v := v
  num_params_transformed s := s.length
  get_param_names s := (List.range s.length).map (fun i => toString i)
  assign_priors s := s

/-- A concrete wrapped model whose `log_prior()` raises. -/
def boomGpy : GPyInterface (List Int) Int String where
  log_likelihood _ := .ok 7
  log_prior _ := .error "boom"
  log_likelihood_gradients s := .ok s
  log_prior_gradients _ := .ok (ScalarOrArray.scalar 0)
  transform_gradients _ v := .ok v
  optimizer_array s := s
  set_optimizer_array _ v := v
  num_params_transformed s := s.length
  get_param_names _ := []
  assign_priors s := s

/-- An adapter over `boomGpy` holding a fully populated snapshot from an
earlier, successful evaluation. -/
def boomAdapter : GPyModel (List Int) Int String where
  gpy := boomGpy
  mstate := [1, 2, 3]
  name := "boom"
  compute_grad := true
  state :=
    { log_likelihood := some 7
      log_prior := some 5
      grad_log_likelihood := some [1, 2, 3]
      grad_log_prior := some [0, 0, 0]
      params := some [1, 2, 3] }

/-- The queries the adapter issues during `_eval_state` are functions of the
wrapped model's transformed parameter vector alone (determinism of the
wrapped model in its parameter state). -/
def DeterministicInParams {σ V E : Type} (g : GPyInterface σ V E) : Prop :=
  ∀ m m', g.optimizer_array m = g.optimizer_array m' →
    g.log_likelihood m = g.log_likelihood m' ∧
    g.log_prior m = g.log_prior m' ∧
    g.log_likelihood_gradients m = g.log_likelihood_gradients m' ∧
    g.log_prior_gradients m = g.log_prior_gradients m' ∧
    (∀ v, g.transform_gradients m v = g.transform_gradients m' v) ∧
    g.num_params_transformed m = g.num_params_transformed m'

/-- A concrete adapter over `demoGpy`, as built by the constructor. -/
def demoAdapter : GPyModel (List Int) Int String :=
  (GPyModel.init demoGpy [1, 2] "demo" true true).2

/-- If the wrapped model's queries are functions of its transformed parameter
vector, then `_eval_state` computes the same outcome and snapshot at any two
model states carrying the same parameter vector. -/
theorem evalStateCore_congr {σ V E : Type} (g : GPyInterface σ V E)
    (m m' : σ) (cg : Bool) (hdet : DeterministicInParams g)
    (hoa : g.optimizer_array m = g.optimizer_array m') :
    evalStateCore g m cg = evalStateCore g m' cg := by
  obtain ⟨h1, h2, h3, h4, h5, h6⟩ := hdet m m' hoa
  unfold evalStateCore
  rw [h1, h2, h3, h4, h6, hoa]
  simp only [h5]

/-- When `_eval_state` completes without an exception, the snapshot's
`params` entry is (a copy of) the wrapped model's optimizer array. -/
theorem evalStateCore_params_of_ok {σ V E : Type} (g : GPyInterface σ V E)
    (m : σ) (cg : Bool)
    (hok : (evalStateCore g m cg).1 = Except.ok ()) :
    (evalStateCore g m cg).2.params = some (g.optimizer_array m) := by
  rcases hll : g.log_likelihood m with e | ll
  · simp [evalStateCore, hll] at hok
  rcases hlp : g.log_prior m with e | lp
  · simp [evalStateCore, hll, hlp] at hok
  cases cg
  · simp [evalStateCore, hll, hlp]
  rcases hgl : g.log_likelihood_gradients m with e | gl
  · simp [evalStateCore, hll, hlp, hgl] at hok
  rcases htgl : g.transform_gradients m gl with e | tgl
  · simp [evalStateCore, hll, hlp, hgl, htgl] at hok
  rcases hgp : g.log_prior_gradients m with e | gp
  · simp [evalStateCore, hll, hlp, hgl, htgl, hgp] at hok
  rcases htgp : g.transform_gradients m
      (normalizePriorGrad gp (g.num_params_transformed m)) with e | tgp
  · simp [evalStateCore, hll, hlp, hgl, htgl, hgp, htgp] at hok
  simp [evalStateCore, hll, hlp, hgl, htgl, hgp, htgp]

/-- C10: `__setstate__` replaces only the cached snapshot.  The wrapped
model's behaviour and state are untouched, the stored `_compute_grad` flag
and name are unchanged, and the snapshot becomes exactly the argument — no
state evaluation or model query is performed (the result is the input
adapter with only the `_state` field rebound). -/
theorem setstate_frame {σ V E : Type} (a : GPyModel σ V E)
    (s : ModelState V) :
    (a.setstate s).mstate = a.mstate ∧
    (a.setstate s).gpy = a.gpy ∧
    (a.setstate s).compute_grad = a.compute_grad ∧
    (a.setstate s).name = a.name ∧
    (a.setstate s).state = s :=
  ⟨rfl, rfl, rfl, rfl, rfl⟩

/-- C8: `num_params` and `param_names` are read live from the wrapped model
at every access — they are the model's current transformed-parameter count
and name list, and are unaffected by `__setstate__` and by the snapshot's
contents. -/
theorem num_params_param_names_live {σ V E : Type} (a : GPyModel σ V E)
    (s : ModelState V) :
    a.num_params = a.gpy.num_params_transformed a.mstate ∧
    a.param_names = a.gpy.get_param_names a.mstate ∧
    (a.setstate s).num_params = a.num_params ∧
    (a.setstate s).param_names = a.param_names :=
  ⟨rfl, rfl, rfl, rfl⟩

/-- C7: `__getstate__` on one adapter followed by `__setstate__` on a fresh
adapter wrapping the same model makes every snapshot-backed property of the
fresh adapter agree with the source adapter, and `__setstate__` followed by
`__getstate__` is the identity on snapshots (pure passthrough). -/
theorem getstate_setstate_roundtrip {σ V E : Type} (a b : GPyModel σ V E)
    (hg : b.gpy = a.gpy) (hm : b.mstate = a.mstate) :
    (b.setstate a.getstate).log_likelihood = a.log_likelihood ∧
    (b.setstate a.getstate).log_prior = a.log_prior ∧
    (b.setstate a.getstate).params = a.params ∧
    (b.setstate a.getstate).grad_log_likelihood = a.grad_log_likelihood ∧
    (b.setstate a.getstate).grad_log_prior = a.grad_log_prior ∧
    (∀ s : ModelState V, (b.setstate s).getstate = s) :=
  ⟨rfl, rfl, rfl, rfl, rfl, fun _ => rfl⟩

/-- Witness for C7 at a concrete adapter pair: the source is `boomAdapter`
(fully populated snapshot), the fresh instance is freshly constructed over
the same wrapped model and state. -/
theorem getstate_setstate_roundtrip_witness :
    ((GPyModel.init boomGpy [1, 2, 3] "fresh" true true).2.setstate
        boomAdapter.getstate).params = boomAdapter.params :=
  (getstate_setstate_roundtrip boomAdapter
    (GPyModel.init boomGpy [1, 2, 3] "fresh" true true).2 rfl rfl).2.2.1

/-- C9: an adapter constructed with `compute_grad = False` caches no
gradient entries: both gradient keys are absent from the snapshot, so the
`grad_log_likelihood` and `grad_log_prior` properties hit a missing key
(`KeyError`, i.e. `none`) instead of returning a default or stale value. -/
theorem no_grad_entries_when_disabled {σ V E : Type}
    (g : GPyInterface σ V E) (m : σ) (nm : String) (ap : Bool) :
    (GPyModel.init g m nm false ap).2.grad_log_likelihood = none ∧
    (GPyModel.init g m nm false ap).2.grad_log_prior = none := by
  rcases hll : g.log_likelihood (if ap then g.assign_priors m else m)
      with e | ll
  · simp [GPyModel.init, GPyModel.eval_state, GPyModel.grad_log_likelihood,
      GPyModel.grad_log_prior, evalStateCore, hll, ModelState.empty]
  rcases hlp : g.log_prior (if ap then g.assign_priors m else m) with e | lp
  · simp [GPyModel.init, GPyModel.eval_state, GPyModel.grad_log_likelihood,
      GPyModel.grad_log_prior, evalStateCore, hll, hlp, ModelState.empty]
  simp [GPyModel.init, GPyModel.eval_state, GPyModel.grad_log_likelihood,
    GPyModel.grad_log_prior, evalStateCore, hll, hlp, ModelState.empty]

/-- C5: immediately after construction the adapter's `log_likelihood` and
`log_prior` properties hold exactly the values the wrapped model's own
`log_likelihood()` and `log_prior()` queries return at the model's current
parameters (i.e. at the model state reached after the optional prior
assignment performed by the constructor). -/
theorem init_caches_model_queries {σ V E : Type} (g : GPyInterface σ V E)
    (m : σ) (nm : String) (cg ap : Bool) (l p : V)
    (hll : g.log_likelihood (if ap then g.assign_priors m else m)
      = Except.ok l)
    (hlp : g.log_prior (if ap then g.assign_priors m else m)
      = Except.ok p) :
    (GPyModel.init g m nm cg ap).2.log_likelihood = some l ∧
    (GPyModel.init g m nm cg ap).2.log_prior = some p := by
  simp only [GPyModel.init, GPyModel.eval_state, GPyModel.log_likelihood,
    GPyModel.log_prior, evalStateCore, hll, hlp]
  repeat' split
  all_goals simp

/-- Witness for C5: over `demoGpy` at parameters `[1, 2, 3]`, the cached
log-likelihood is the model's own sum `6` and the cached log-prior is the
model's own length `3`. -/
theorem init_caches_model_queries_witness :
    (GPyModel.init demoGpy [1, 2, 3] "m" true true).2.log_likelihood
      = some 6 ∧
    (GPyModel.init demoGpy [1, 2, 3] "m" true true).2.log_prior = some 3 :=
  init_caches_model_queries demoGpy [1, 2, 3] "m" true true 6 3 rfl rfl

/-- C2: when the wrapped model reports its log-prior gradient as a single
scalar, the vector handed to `_transform_gradients` (the pre-transform
`grad_log_prior`) is the scalar broadcast to length `num_params`: it has
length `num_params_transformed` and every entry equals the scalar, and the
snapshot stores exactly the transform of that broadcast vector. -/
theorem scalar_prior_grad_broadcast {σ V E : Type} (g : GPyInterface σ V E)
    (m m' : σ) (nm : String) (ap : Bool) (x l p : V) (gl tgl : List V)
    (hm' : m' = if ap then g.assign_priors m else m)
    (hll : g.log_likelihood m' = Except.ok l)
    (hlp : g.log_prior m' = Except.ok p)
    (hgl : g.log_likelihood_gradients m' = Except.ok gl)
    (htgl : g.transform_gradients m' gl = Except.ok tgl)
    (hgp : g.log_prior_gradients m' = Except.ok (ScalarOrArray.scalar x)) :
    normalizePriorGrad (ScalarOrArray.scalar x) (g.num_params_transformed m')
      = List.replicate (g.num_params_transformed m') x ∧
    (List.replicate (g.num_params_transformed m') x).length
      = g.num_params_transformed m' ∧
    (∀ y ∈ List.replicate (g.num_params_transformed m') x, y = x) ∧
    (GPyModel.init g m nm true ap).2.grad_log_prior
      = (g.transform_gradients m'
          (List.replicate (g.num_params_transformed m') x)).toOption := by
  subst hm'
  refine ⟨rfl, List.length_replicate _ _,
    fun y hy => List.eq_of_mem_replicate hy, ?_⟩
  simp only [GPyModel.init, GPyModel.eval_state, GPyModel.grad_log_prior,
    evalStateCore, hll, hlp, hgl, htgl, hgp]
  rcases htgp : g.transform_gradients (if ap then g.assign_priors m else m)
      (normalizePriorGrad (ScalarOrArray.scalar x)
        (g.num_params_transformed (if ap then g.assign_priors m else m)))
      with e | tgp
  · simp only [normalizePriorGrad] at htgp
    simp [htgp, Except.toOption, ModelState.empty]
  · simp only [normalizePriorGrad] at htgp
    simp [htgp, Except.toOption]

/-- Witness for C2: the spec scenario — a model with 3 transformed
parameters, `compute_grad` enabled, flat prior reporting scalar gradient
`0`; the pre-transform prior gradient is `[0, 0, 0]`, and the stored
(post-transform) gradient is the transform of that vector. -/
theorem scalar_prior_grad_broadcast_witness :
    List.replicate (demoGpy.num_params_transformed [5, 6, 7]) (0 : Int)
      = [0, 0, 0] ∧
    (GPyModel.init demoGpy [5, 6, 7] "w" true true).2.grad_log_prior
      = some [0, 0, 0] := by
  have h := scalar_prior_grad_broadcast demoGpy [5, 6, 7] [5, 6, 7] "w" true
    (0 : Int) 18 3 [5, 6, 7] [10, 12, 14] rfl rfl rfl rfl rfl rfl
  exact ⟨rfl, by rw [h.2.2.2]; rfl⟩

/-- C4: setting `params` to `v` writes `v` into the wrapped model's
optimizer array and, when the triggered re-evaluation succeeds, reading
`params` back returns `v` (assuming the model's optimizer array reads back
what was last written to it); the model's live optimizer array also reads
back as `v`. -/
theorem set_params_roundtrip {σ V E : Type} (a : GPyModel σ V E)
    (v : List V)
    (hset : a.gpy.optimizer_array (a.gpy.set_optimizer_array a.mstate v)
      = v)
    (hok : (a.set_params v).1 = Except.ok ()) :
    (a.set_params v).2.params = some v ∧
    a.gpy.optimizer_array ((a.set_params v).2.mstate) = v := by
  have h1 : (a.set_params v).2.params
      = (evalStateCore a.gpy (a.gpy.set_optimizer_array a.mstate v)
          a.compute_grad).2.params := rfl
  have h2 : (a.set_params v).1
      = (evalStateCore a.gpy (a.gpy.set_optimizer_array a.mstate v)
          a.compute_grad).1 := rfl
  refine ⟨?_, hset⟩
  rw [h1, evalStateCore_params_of_ok _ _ _ (h2 ▸ hok), hset]

/-- Witness for C4 on the concrete adapter `demoAdapter`. -/
theorem set_params_roundtrip_witness :
    (demoAdapter.set_params [3, 4]).2.params = some [3, 4] ∧
    demoAdapter.gpy.optimizer_array
        ((demoAdapter.set_params [3, 4]).2.mstate) = [3, 4] :=
  set_params_roundtrip demoAdapter [3, 4] rfl rfl

/-- C3: for a deterministic wrapped model (all queries functions of the
transformed parameter vector, and the optimizer array reading back what was
written), setting `params` to `w` and then back to the current vector `v`
reproduces the previously cached snapshot exactly — all snapshot-backed
quantities included. -/
theorem set_params_revert_reproduces_snapshot {σ V E : Type}
    (a : GPyModel σ V E) (v w : List V)
    (hdet : DeterministicInParams a.gpy)
    (hset : ∀ m u, a.gpy.optimizer_array (a.gpy.set_optimizer_array m u)
      = u)
    (hcur : a.gpy.optimizer_array a.mstate = v)
    (hcoh : (a.eval_state).2.state = a.state) :
    (((a.set_params w).2).set_params v).2.state = a.state := by
  have hoa : a.gpy.optimizer_array
      (a.gpy.set_optimizer_array (a.gpy.set_optimizer_array a.mstate w) v)
      = a.gpy.optimizer_array a.mstate := by rw [hset, hcur]
  have hc := evalStateCore_congr a.gpy
      (a.gpy.set_optimizer_array (a.gpy.set_optimizer_array a.mstate w) v)
      a.mstate a.compute_grad hdet hoa
  have hfinal : (((a.set_params w).2).set_params v).2.state
      = (evalStateCore a.gpy
          (a.gpy.set_optimizer_array (a.gpy.set_optimizer_array a.mstate w)
            v)
          a.compute_grad).2 := rfl
  rw [hfinal, hc]
  exact hcoh

/-- Witness for C3 on `demoAdapter`: parameters `[1, 2]`, detour through
`[9, 9]` and back. -/
theorem set_params_revert_reproduces_snapshot_witness :
    (((demoAdapter.set_params [9, 9]).2).set_params [1, 2]).2.state
      = demoAdapter.state := by
  have hdet : DeterministicInParams demoGpy := by
    intro m m' hmm
    have h : m = m' := hmm
    subst h
    exact ⟨rfl, rfl, rfl, rfl, fun _ => rfl, rfl⟩
  exact set_params_revert_reproduces_snapshot demoAdapter [1, 2] [9, 9]
    hdet (fun _ _ => rfl) rfl (by decide)

/-- Counterexample to C1: over `boomGpy` (whose `log_prior()` raises), an
adapter holding a fully populated snapshot from an earlier evaluation runs
`_eval_state`; the exception does propagate, but the previously cached
snapshot does not remain intact — the caller is left with a partially
populated snapshot containing only `log_likelihood`, because the method
rebinds `self._state = {}` before the queries and populates it key by
key. -/
theorem eval_state_not_atomic_cex :
    (boomAdapter.eval_state).1 = Except.error "boom" ∧
    (boomAdapter.eval_state).2.state ≠ boomAdapter.state ∧
    (boomAdapter.eval_state).2.state.log_likelihood = some 7 ∧
    (boomAdapter.eval_state).2.state.log_prior = none :=
  ⟨rfl, by decide, rfl, rfl⟩

/-- C1 (amended): if the wrapped model raises during `_eval_state` (here:
`log_prior()` raises after `log_likelihood()` succeeded), the exception
propagates unchanged to the caller, but the snapshot is not replaced
atomically: the previous snapshot is discarded at the start of evaluation
and the caller observes a fresh snapshot holding exactly the fields computed
before the failing query. -/
theorem eval_state_error_partial {σ V E : Type} (a : GPyModel σ V E)
    (l : V) (e : E)
    (hll : a.gpy.log_likelihood a.mstate = Except.ok l)
    (hlp : a.gpy.log_prior a.mstate = Except.error e) :
    (a.eval_state).1 = Except.error e ∧
    (a.eval_state).2.state
      = { ModelState.empty with log_likelihood := some l } := by
  constructor <;>
    simp [GPyModel.eval_state, evalStateCore, hll, hlp, ModelState.empty]

/-- Witness for the amended C1 on the concrete adapter `boomAdapter`. -/
theorem eval_state_error_partial_witness :
    (boomAdapter.eval_state).1 = Except.error "boom" ∧
    (boomAdapter.eval_state).2.state
      = { ModelState.empty with log_likelihood := some 7 } :=
  eval_state_error_partial boomAdapter 7 "boom" rfl rfl

/-- C6: the snapshot's parameter vector is a defensive copy.  In the heap
model of line 58, `_eval_state` stores the reference produced by
`optimizer_array.copy()`; a later external in-place mutation of the model's
own array (reference `r`) leaves the contents behind the copied reference
unchanged — they still read back as the contents at copy time.  At the
value level, changing the wrapped model's state never alters the cached
`params` read through the property. -/
theorem params_copy_defensive {σ V E : Type} (h : Heap V) (r : Nat)
    (xs : List V) (hr : r < h.arrays.length)
    (a : GPyModel σ V E) (m' : σ) :
    ((Heap.copy h r).1.write r xs).read (Heap.copy h r).2 = h.read r ∧
    (Heap.copy h r).1.read (Heap.copy h r).2 = h.read r ∧
    ({ a with mstate := m' } : GPyModel σ V E).params = a.params := by
  refine ⟨?_, ?_, rfl⟩
  · show ((h.arrays ++ [h.read r]).set r xs).getD h.arrays.length []
      = h.read r
    rw [List.getD_eq_getElem?_getD, List.getElem?_set_ne (Nat.ne_of_lt hr),
      List.getElem?_concat_length]
    rfl
  · show (h.arrays ++ [h.read r]).getD h.arrays.length [] = h.read r
    rw [List.getD_eq_getElem?_getD, List.getElem?_concat_length]
    rfl

/-- Witness for C6: a one-array heap; after copying array 0 and then
overwriting array 0 in place with `[9, 9, 9]`, the copy still reads
`[1, 2, 3]`. -/
theorem params_copy_defensive_witness :
    ((Heap.copy (⟨[[1, 2, 3]]⟩ : Heap Int) 0).1.write 0 [9, 9, 9]).read
        (Heap.copy (⟨[[1, 2, 3]]⟩ : Heap Int) 0).2 = [1, 2, 3] :=
  (params_copy_defensive (⟨[[1, 2, 3]]⟩ : Heap Int) 0 [9, 9, 9] (by decide)
    boomAdapter []).1
